import Mathlib

/-!
Verification of the task-expansion core of the `gemini-mcp-task-master`
repository: a shallow embedding of `expandTaskDirect`
(mcp-server/src/core/direct-functions/expand-task.js) and of
`getBestAvailableAIModel` (mcp-server/src/core/utils/ai-client-utils.js),
with theorems settling the specification's claims about them.

The JavaScript functions `readJSON`, `writeJSON`, `callAIProvider` and
`parseSubtasksFromText` are imported by `expand-task.js` from
`scripts/modules/…` modules that are not part of the sources under
verification; they are modelled as oracle parameters (an `Oracles`
record), so every theorem about `expandTaskDirect` is quantified over all
possible behaviours of those collaborators unless it instantiates them
concretely.
-/

namespace TaskMaster

/-- JS truthiness of an optional string (`undefined`, `null` and `""` are falsy). -/
def jsTruthyStr : Option String → Bool
  | none => false
  | some s => s ≠ ""

/-- Keep an optional string only when it is JS-truthy (non-empty). -/
def truthyOpt : Option String → Option String
  | none => none
  | some s => if s = "" then none else some s

/-- Fold a list of decimal digit characters into a natural number. -/
def digitsToNat (l : List Char) : Nat :=
  l.foldl (fun a c => a * 10 + (c.toNat - 48)) 0

/-- JS `parseInt(s, 10)`: skip leading whitespace, optional sign, longest
leading digit run; `none` models the JS `NaN` result. -/
def parseIntJS (s : String) : Option Int :=
  let t := s.toList.dropWhile Char.isWhitespace
  let sign : Int := if t.head? = some '-' then -1 else 1
  let rest := if t.head? = some '-' || t.head? = some '+' then t.drop 1 else t
  let ds := rest.takeWhile Char.isDigit
  if ds.isEmpty then none else some (sign * (digitsToNat ds : Int))

/-- JS `String.prototype.toUpperCase` (per-character uppercase). -/
def jsToUpper (s : String) : String := ⟨s.data.map Char.toUpper⟩

/-- JS `v || d` on a number that may be `undefined`/`NaN` (modelled `none`) or `0`. -/
def jsOrNum (v : Option Int) (d : Int) : Int :=
  match v with
  | none => d
  | some n => if n = 0 then d else n

/-- JS `v || d` on a string that may be `undefined` (modelled `none`) or empty. -/
def jsOrStr (v : Option String) (d : String) : String :=
  match v with
  | none => d
  | some s => if s = "" then d else s

/-- A subtask record as stored in `tasks.json`. -/
structure Subtask where
  id : Int
  title : String
  description : String
  dependencies : List Int
  details : String
deriving DecidableEq, Repr

/-- A task record as stored in `tasks.json`; `details` and `subtasks` may be
absent in the JSON (modelled with `Option`). -/
structure Task where
  id : Int
  title : String
  description : String
  details : Option String
  status : String
  subtasks : Option (List Subtask)
deriving DecidableEq, Repr

/-- The parsed store document; `tasks` may be absent (`!data.tasks` check). -/
structure TasksData where
  tasks : Option (List Task)
deriving DecidableEq, Repr

/-- The `data` object of a successful expand result.  The two success paths of
the source build objects with different key sets; a key that a path does not
put in the object is modelled as `none`. -/
structure SuccessData where
  message : String
  task : Task
  newSubtasks : Option (List Subtask)
  subtasksAdded : Nat
  totalSubtasks : Option Nat
  hasExistingSubtasks : Option Bool
deriving DecidableEq, Repr

/-- Result of `expandTaskDirect`: `{success: true, data}` or
`{success: false, error: {code, message}}`. -/
inductive ExpandOutcome where
  | ok (data : SuccessData)
  | err (code : String) (message : String)
deriving DecidableEq, Repr

/-- The on-disk state the operation touches: the raw content of the store
file (`tasks.json`) and of its backup sibling (`tasks.json.bak`, `none` when
the backup file does not exist). -/
structure FS where
  store : String
  backup : Option String
deriving DecidableEq, Repr

/-- The collaborators `expand-task.js` imports from `scripts/modules`:
`readJSON`/`writeJSON` (parse / serialize the store file content) and
`callAIProvider`/`parseSubtasksFromText` (the AI call, which can throw, and
the free-text parser, which returns `null` or a list). -/
structure Oracles where
  readJSON : String → Option TasksData
  writeJSON : TasksData → String
  callAIProvider : String → Bool → Except String String
  parseSubtasksFromText : String → Int → Int → Int → Option (List Subtask)

/-- The arguments object of `expandTaskDirect`. -/
structure ExpandArgs where
  tasksJsonPath : Option String
  id : Option String
  num : Option String
  research : Bool
  prompt : Option String
  force : Bool

/-- `const taskId = id ? parseInt(id, 10) : null`. -/
def resolveTaskId (args : ExpandArgs) : Option Int :=
  if jsTruthyStr args.id then parseIntJS (args.id.getD "") else none

/-- `const numSubtasks = num ? parseInt(num, 10) : undefined`. -/
def resolveNumSubtasks (args : ExpandArgs) : Option Int :=
  if jsTruthyStr args.num then parseIntJS (args.num.getD "") else none

/-- JS falsiness of an optional number: `null`, `NaN` (both `none`) and `0`. -/
def jsNumFalsy : Option Int → Bool
  | none => true
  | some n => n = 0

/-- `task.subtasks && task.subtasks.length > 0`. -/
def hasExistingSubtasksOf (t : Task) : Bool :=
  match t.subtasks with
  | none => false
  | some l => decide (0 < l.length)

/-- `data.tasks.find((t) => t.id === taskId)`. -/
def findTask (ts : List Task) (tid : Int) : Option Task :=
  ts.find? (fun t => t.id == tid)

/-- Replace the first task with the given id (the source mutates the object
returned by `find`, which is the first match, in place). -/
def replaceFirstTask (ts : List Task) (tid : Int) (f : Task → Task) : List Task :=
  match ts with
  | [] => []
  | t :: rest => if t.id = tid then f t :: rest else t :: replaceFirstTask rest tid f

/- Prompt template pieces, transcribed from the template literals of
`expand-task.js` (lines 203, 205–210, 214).  Braces that occur literally in
the JSON example are written with hex escapes. -/

/-- System prompt text before the first `${subtaskCount}`. -/
def sysA : String :=
  "You are an AI assistant helping with task breakdown. Break down the given task into "

/-- System prompt text between `${subtaskCount}` and the id-numbering
instruction. -/
def sysB : String :=
  " specific subtasks.\n\nSubtasks should:\n1. Be specific and actionable implementation steps\n2. Follow a logical sequence\n3. Each handle a distinct part of the parent task\n4. Include clear guidance on implementation approach\n5. Have appropriate dependency chains between subtasks ("

/-- System prompt text between `${nextSubtaskId}` and `Return exactly `. -/
def sysC : String :=
  ")\n6. Collectively cover all aspects of the parent task\n\n"

/-- System prompt text between `${subtaskCount}` and the JSON `"id": ` key. -/
def sysD : String :=
  " with the following JSON structure:\n[\n  \x7b\n    "

/-- JSON example text between `"id": ${nextSubtaskId}` and `"title"`. -/
def sysE0 : String := ",\n    "

/-- JSON example text between `"title"` and `"description"`. -/
def sysE1 : String := ": \"First subtask title\",\n    "

/-- JSON example text between `"description"` and `"dependencies"`. -/
def sysE2 : String := ": \"Detailed description\",\n    "

/-- JSON example text between `"dependencies"` and `"details"`. -/
def sysE3 : String := ": [],\n    "

/-- System prompt text after the JSON example's `"details"` key. -/
def sysE4 : String :=
  ": \"Implementation details\"\n  \x7d,\n  ...\n]\n\nIMPORTANT: Respond ONLY with the JSON array, nothing else."

/-- The `systemPrompt` template literal of `expand-task.js`. -/
def mkSystemPrompt (subtaskCount nextSubtaskId : Int) : String :=
  sysA ++ toString subtaskCount ++ sysB ++
    "use numerical IDs starting from " ++ toString nextSubtaskId ++ sysC ++
    "Return exactly " ++ toString subtaskCount ++ " subtasks" ++ sysD ++
    "\"id\": " ++ toString nextSubtaskId ++ sysE0 ++ "\"title\"" ++ sysE1 ++
    "\"description\"" ++ sysE2 ++ "\"dependencies\"" ++ sysE3 ++ "\"details\"" ++ sysE4

/-- `additionalContext ? `\n\nAdditional context: ...` : ''`. -/
def mkContextPrompt (additionalContext : String) : String :=
  if additionalContext = "" then "" else "\n\nAdditional context: " ++ additionalContext

/-- The `userPrompt` template literal of `expand-task.js`. -/
def mkUserPrompt (subtaskCount : Int) (t : Task) (contextPrompt : String) : String :=
  "Break down this task into " ++ toString subtaskCount ++ " subtasks:\nTask ID: " ++
    toString t.id ++ "\nTitle: " ++ t.title ++ "\nDescription: " ++ t.description ++
    "\nDetails: " ++ jsOrStr t.details "N/A" ++ contextPrompt

/-- `const fullPrompt = `${systemPrompt}\n\n${userPrompt}``. -/
def mkFullPrompt (subtaskCount nextSubtaskId : Int) (t : Task) (additionalContext : String) : String :=
  mkSystemPrompt subtaskCount nextSubtaskId ++ "\n\n" ++
    mkUserPrompt subtaskCount t (mkContextPrompt additionalContext)

/-- `const nextSubtaskId = (task.subtasks?.length || 0) + 1`. -/
def nextSubtaskIdOf (t : Task) : Int :=
  ((t.subtasks.getD []).length : Int) + 1

/-- The generation phase of `expandTaskDirect` (the inner `try` block): build
the prompt, call the provider, parse, commit, delete the backup; on any
failure return `CORE_FUNCTION_ERROR` leaving the prepared file state. -/
def expandGenerate (o : Oracles) (tid : Int) (numSubtasks : Option Int)
    (useResearch : Bool) (additionalContext : String)
    (dataPrep : TasksData) (taskPrep originalTask : Task) (fs1 : FS) :
    ExpandOutcome × FS :=
  let nextSubtaskId := nextSubtaskIdOf taskPrep
  let subtaskCount := jsOrNum numSubtasks 5
  let fullPrompt := mkFullPrompt subtaskCount nextSubtaskId taskPrep additionalContext
  match o.callAIProvider fullPrompt useResearch with
  | .error m => (.err "CORE_FUNCTION_ERROR" ("AI Error: " ++ m), fs1)
  | .ok text =>
    match o.parseSubtasksFromText text nextSubtaskId subtaskCount tid with
    | none => (.err "CORE_FUNCTION_ERROR" "AI did not return valid subtasks.", fs1)
    | some [] => (.err "CORE_FUNCTION_ERROR" "AI did not return valid subtasks.", fs1)
    | some newSubtasks =>
      match findTask (dataPrep.tasks.getD []) tid with
      | none => (.err "CORE_FUNCTION_ERROR" "Task disappeared unexpectedly!", fs1)
      | some tFound =>
        let merged := (tFound.subtasks.getD []) ++ newSubtasks
        let dataFinal : TasksData :=
          { dataPrep with
            tasks := some (replaceFirstTask (dataPrep.tasks.getD []) tid
              (fun t => { t with subtasks := some ((t.subtasks.getD []) ++ newSubtasks) })) }
        let fs2 : FS := { store := o.writeJSON dataFinal, backup := none }
        (.ok { message := "Task " ++ toString tid ++ " expanded successfully with " ++
                 toString newSubtasks.length ++ " subtasks.",
               task := originalTask,
               newSubtasks := some newSubtasks,
               subtasksAdded := newSubtasks.length,
               totalSubtasks := some merged.length,
               hasExistingSubtasks := none }, fs2)

/-- `if (hasExistingSubtasks && forceFlag) { task.subtasks = []; }` followed by
the `originalTask` deep-copy snapshot: the snapshot is taken after the
force-clear. -/
def clearTask (task : Task) (forceFlag : Bool) : Task :=
  if hasExistingSubtasksOf task && forceFlag then
    { task with subtasks := some ([] : List Subtask) }
  else task

/-- The task object as it stands when the Preparing write happens: after the
force-clear and after `if (!task.subtasks) { task.subtasks = []; }`. -/
def prepTask (task : Task) (forceFlag : Bool) : Task :=
  let tc := clearTask task forceFlag
  if tc.subtasks.isNone then { tc with subtasks := some ([] : List Subtask) } else tc

/-- The document written by the Preparing step: the in-memory `data` with the
(first) target task replaced by its prepared form. -/
def prepData (data : TasksData) (ts : List Task) (tid : Int) (taskPrep : Task) : TasksData :=
  { data with tasks := some (replaceFirstTask ts tid (fun _ => taskPrep)) }

/-- The error code of a result, `none` for a success. -/
def codeOf : ExpandOutcome → Option String
  | .ok _ => none
  | .err c _ => some c

/-- The body of the outer `try` block of `expandTaskDirect`: read the store,
validate the target task, prepare (backup + clear-write), then generate. -/
def expandMain (o : Oracles) (tasksPath : String) (tid : Int)
    (numSubtasks : Option Int) (useResearch : Bool) (additionalContext : String)
    (forceFlag : Bool) (fs : FS) : ExpandOutcome × FS :=
  match o.readJSON fs.store with
  | none =>
    (.err "INVALID_TASKS_FILE" ("No valid tasks found in " ++ tasksPath), fs)
  | some data =>
    match data.tasks with
    | none =>
      (.err "INVALID_TASKS_FILE" ("No valid tasks found in " ++ tasksPath), fs)
    | some ts =>
      match findTask ts tid with
      | none =>
        (.err "TASK_NOT_FOUND" ("Task with ID " ++ toString tid ++ " not found"), fs)
      | some task =>
        if task.status = "done" ∨ task.status = "completed" then
          (.err "TASK_COMPLETED"
            ("Task " ++ toString tid ++ " is already marked as " ++ task.status ++
              " and cannot be expanded"), fs)
        else
          if hasExistingSubtasksOf task && !forceFlag then
            (.ok { message := "Task " ++ toString tid ++
                     " already has subtasks. Expansion skipped.",
                   task := task,
                   newSubtasks := none,
                   subtasksAdded := 0,
                   totalSubtasks := none,
                   hasExistingSubtasks := some true }, fs)
          else
            let originalTask := clearTask task forceFlag
            let taskPrep := prepTask task forceFlag
            let dataPrep := prepData data ts tid taskPrep
            let fs1 : FS := { store := o.writeJSON dataPrep, backup := some fs.store }
            expandGenerate o tid numSubtasks useResearch additionalContext
              dataPrep taskPrep originalTask fs1

/-- The guard phase of `expandTaskDirect` over the already-destructured and
processed arguments: the `tasksJsonPath` and task-id checks, then the outer
`try` body. -/
def expandResolved (o : Oracles) (tasksPath : Option String) (taskId : Option Int)
    (numSubtasks : Option Int) (useResearch : Bool) (prompt : Option String)
    (forceFlag : Bool) (fs : FS) : ExpandOutcome × FS :=
  if ¬ jsTruthyStr tasksPath then
    (.err "MISSING_ARGUMENT" "tasksJsonPath is required", fs)
  else if jsNumFalsy taskId then
    (.err "INPUT_VALIDATION_ERROR" "Task ID is required", fs)
  else
    expandMain o (jsOrStr tasksPath "") (taskId.getD 0) numSubtasks useResearch
      (jsOrStr prompt "") forceFlag fs

/-- Shallow embedding of `expandTaskDirect` from
`mcp-server/src/core/direct-functions/expand-task.js`: destructure the
arguments object, process the parameters, then run the guarded body.  The
file system state is threaded explicitly; logging and the global silent-mode
flag, which carry no data, are omitted. -/
def expandTaskDirect (o : Oracles) (args : ExpandArgs) (fs : FS) :
    ExpandOutcome × FS :=
  expandResolved o args.tasksJsonPath (resolveTaskId args) (resolveNumSubtasks args)
    args.research args.prompt args.force fs

/-! ## Provider resolution (`ai-client-utils.js`) -/

/-- The environment-derived configuration read by the provider utilities.
Each variable is the JS merge `session?.env?.X || process.env.X`.  The flag
`openaiImportOk` models whether the dynamic `await import('openai')` inside
`getPerplexityClientForMCP` succeeds. -/
structure Env where
  AI_PROVIDER : Option String
  ANTHROPIC_API_KEY : Option String
  GOOGLE_API_KEY : Option String
  PERPLEXITY_API_KEY : Option String
  MODEL : Option String
  GEMINI_MODEL : Option String
  PERPLEXITY_MODEL : Option String
  openaiImportOk : Bool
deriving DecidableEq, Repr

/-- A constructed AI client handle, tagged by backend. -/
inductive Client where
  | anthropic (apiKey : String)
  | google (apiKey : String)
  | perplexity (apiKey : String)
deriving DecidableEq, Repr

/-- `getAnthropicClientForMCP`: throws when `ANTHROPIC_API_KEY` is absent. -/
def getAnthropicClientForMCP (e : Env) : Except String Client :=
  match truthyOpt e.ANTHROPIC_API_KEY with
  | some k => .ok (.anthropic k)
  | none => .error "ANTHROPIC_API_KEY not found in session environment or process.env"

/-- `getGoogleClientForMCP`: throws when `GOOGLE_API_KEY` is absent. -/
def getGoogleClientForMCP (e : Env) : Except String Client :=
  match truthyOpt e.GOOGLE_API_KEY with
  | some k => .ok (.google k)
  | none => .error "GOOGLE_API_KEY not found in session environment or process.env"

/-- `getPerplexityClientForMCP`: throws when `PERPLEXITY_API_KEY` is absent or
the dynamic import of the `openai` package fails. -/
def getPerplexityClientForMCP (e : Env) : Except String Client :=
  match truthyOpt e.PERPLEXITY_API_KEY with
  | none => .error "PERPLEXITY_API_KEY not found in session environment or process.env"
  | some k => if e.openaiImportOk then .ok (.perplexity k) else .error "Cannot find module openai"

/-- The model-info object returned by `getBestAvailableAIModel`:
`{ type, client }` optionally extended with `modelName` (the research-path
Perplexity return omits `modelName`, modelled as `none`). -/
structure ModelInfo where
  type : String
  client : Client
  modelName : Option String
deriving DecidableEq, Repr

/-- `(session?.env?.AI_PROVIDER || process.env.AI_PROVIDER)?.toUpperCase() || 'ANTHROPIC'`. -/
def primaryProviderOf (e : Env) : String :=
  match truthyOpt e.AI_PROVIDER with
  | some s => jsToUpper s
  | none => "ANTHROPIC"

/-- `session?.env?.MODEL || process.env.MODEL || d`. -/
def claudeModelName (e : Env) (d : String) : String :=
  (truthyOpt e.MODEL).getD d

/-- `session?.env?.GEMINI_MODEL || process.env.GEMINI_MODEL || 'gemini-2.5-pro-latest'`. -/
def geminiModelName (e : Env) : String :=
  (truthyOpt e.GEMINI_MODEL).getD "gemini-2.5-pro-latest"

/-- The Claude-overloaded fallback block of `getBestAvailableAIModel`:
Google first (when it is the primary or its key is present), then Perplexity,
then the overloaded Claude as last resort. -/
def resolveOverloaded (e : Env) : Except String ModelInfo :=
  let primaryProvider := primaryProviderOf e
  let googleStep : Option ModelInfo :=
    if primaryProvider = "GOOGLE" || (truthyOpt e.GOOGLE_API_KEY).isSome then
      match getGoogleClientForMCP e with
      | .ok c => some { type := "google", client := c, modelName := some (geminiModelName e) }
      | .error _ => none
    else none
  match googleStep with
  | some m => .ok m
  | none =>
    let perplexityStep : Option ModelInfo :=
      if (truthyOpt e.PERPLEXITY_API_KEY).isSome then
        match getPerplexityClientForMCP e with
        | .ok c =>
          some { type := "perplexity", client := c,
                 modelName := some ((truthyOpt e.PERPLEXITY_MODEL).getD "sonar-pro") }
        | .error _ => none
      else none
    match perplexityStep with
    | some m => .ok m
    | none =>
      match getAnthropicClientForMCP e with
      | .ok c =>
        .ok { type := "claude", client := c,
              modelName := some (claudeModelName e "claude-3-7-sonnet-2025-02-19") }
      | .error _ =>
        .error "No AI models available, Claude overloaded and fallbacks failed."

/-- The default block of `getBestAvailableAIModel`: the configured primary
family, then the other family as fallback. -/
def resolveDefault (e : Env) : Except String ModelInfo :=
  let primaryProvider := primaryProviderOf e
  let primaryStep : Option ModelInfo :=
    if primaryProvider = "GOOGLE" then
      match getGoogleClientForMCP e with
      | .ok c => some { type := "google", client := c, modelName := some (geminiModelName e) }
      | .error _ => none
    else
      match getAnthropicClientForMCP e with
      | .ok c =>
        some { type := "claude", client := c,
               modelName := some (claudeModelName e "claude-3-7-sonnet-2025-02-19") }
      | .error _ => none
  match primaryStep with
  | some m => .ok m
  | none =>
    let otherStep : Option ModelInfo :=
      if primaryProvider = "GOOGLE" && (truthyOpt e.ANTHROPIC_API_KEY).isSome then
        match getAnthropicClientForMCP e with
        | .ok c =>
          some { type := "claude", client := c,
                 modelName := some (claudeModelName e "claude-3-7-sonnet-2025-02-19") }
        | .error _ => none
      else if primaryProvider = "ANTHROPIC" && (truthyOpt e.GOOGLE_API_KEY).isSome then
        match getGoogleClientForMCP e with
        | .ok c =>
          some { type := "google", client := c, modelName := some (geminiModelName e) }
        | .error _ => none
      else none
    match otherStep with
    | some m => .ok m
    | none =>
      .error "No primary AI models available. Please check your API keys and AI_PROVIDER setting."

/-- Shallow embedding of `getBestAvailableAIModel` from
`mcp-server/src/core/utils/ai-client-utils.js`.  `Except.error` models a
thrown error; each `try { return … } catch` whose catch falls through is
encoded as an intermediate `Option ModelInfo`. -/
def getBestAvailableAIModel (e : Env) (requiresResearch claudeOverloaded : Bool) :
    Except String ModelInfo :=
  let primaryProvider := primaryProviderOf e
  -- research requested but Perplexity not configured: primary-provider fallback
  if requiresResearch && (truthyOpt e.PERPLEXITY_API_KEY).isNone then
    if primaryProvider = "GOOGLE" then
      match getGoogleClientForMCP e with
      | .ok c => .ok { type := "google", client := c, modelName := some (geminiModelName e) }
      | .error _ => .error "No AI models available for research"
    else
      match getAnthropicClientForMCP e with
      | .ok c =>
        .ok { type := "claude", client := c,
              modelName := some (claudeModelName e "claude-3-7-sonnet-20250219") }
      | .error _ => .error "No AI models available for research"
  else
    -- regular path: Perplexity for research when available, fall through on failure
    let researchStep : Option ModelInfo :=
      if requiresResearch && (truthyOpt e.PERPLEXITY_API_KEY).isSome then
        match getPerplexityClientForMCP e with
        | .ok c => some { type := "perplexity", client := c, modelName := none }
        | .error _ => none
      else none
    match researchStep with
    | some m => .ok m
    | none =>
      if claudeOverloaded then resolveOverloaded e
      else resolveDefault e

/-! ## Generic notions and concrete fixtures -/

/-- `pat` occurs contiguously inside `s`. -/
def ContainsSubstr (s pat : String) : Prop :=
  ∃ a b, s = a ++ pat ++ b

/-- The error codes the operation-result contract allows. -/
def resultCodes : List String :=
  ["MISSING_ARGUMENT", "INPUT_VALIDATION_ERROR", "INVALID_TASKS_FILE",
   "TASK_NOT_FOUND", "TASK_COMPLETED", "CORE_FUNCTION_ERROR", "NO_PROVIDER_AVAILABLE"]

/-- The result-shape contract: a full-expansion success carries `newSubtasks`
and `totalSubtasks`; the skip success carries `hasExistingSubtasks = true` and
`subtasksAdded = 0` without those two keys; a failure's code comes from the
fixed code set. -/
def ResultWellFormed : ExpandOutcome → Prop
  | .ok d =>
      (d.newSubtasks.isSome ∧ d.totalSubtasks.isSome ∧ d.hasExistingSubtasks = none) ∨
      (d.newSubtasks = none ∧ d.totalSubtasks = none ∧ d.subtasksAdded = 0 ∧
        d.hasExistingSubtasks = some true)
  | .err c _ => c ∈ resultCodes

/-- A sample subtask for concrete runs. -/
def cSub : Subtask :=
  { id := 1, title := "Setup", description := "first step", dependencies := [], details := "do it" }

/-- A sample pending task without a `subtasks` field. -/
def cTaskPend : Task :=
  { id := 3, title := "Build API", description := "desc", details := none,
    status := "pending", subtasks := none }

/-- A sample pending task that already has one subtask. -/
def cTaskSub : Task :=
  { id := 3, title := "Build API", description := "desc", details := none,
    status := "pending", subtasks := some [cSub] }

/-- A sample task in terminal status `done`. -/
def cTaskDone : Task :=
  { id := 3, title := "Build API", description := "desc", details := none,
    status := "done", subtasks := none }

/-- A one-task store document. -/
def cDataOf (t : Task) : TasksData := { tasks := some [t] }

/-- Concrete oracles for a store whose raw content is `"orig"` and parses to a
single task `t`: serialization maps the original document to `"orig"`, the
cleared-subtasks document to `"prep"` and anything else to `"final"`; the AI
call succeeds with `"resp"` and the parser returns `parseOut`. -/
def mkTestOracles (t : Task) (parseOut : Option (List Subtask)) : Oracles :=
  { readJSON := fun s => if s = "orig" then some (cDataOf t) else none,
    writeJSON := fun d =>
      if d = cDataOf t then "orig"
      else if d = cDataOf { t with subtasks := some [] } then "prep"
      else "final",
    callAIProvider := fun _ _ => .ok "resp",
    parseSubtasksFromText := fun _ _ _ _ => parseOut }

/-- Sample arguments targeting task 3 with no optional flags. -/
def cArgs : ExpandArgs :=
  { tasksJsonPath := some "tasks.json", id := some "3", num := none,
    research := false, prompt := none, force := false }

/-- Sample initial file-system state: store content `"orig"`, no backup. -/
def cFS : FS := { store := "orig", backup := none }

/-! ## Claim theorems -/

/-- **C2** (Terminal status guard).  Whenever `expandTaskDirect` is invoked
with a present store path and a truthy task id, the store parses to a document
whose task list contains the target id, and the found task's status is `done`
or `completed`, the call returns failure with code `TASK_COMPLETED` and the
file system (store file and backup file alike) is exactly as before: no
backup is created and no write is performed. -/
theorem C2_terminal_status_guard
    (o : Oracles) (args : ExpandArgs) (fs : FS)
    (data : TasksData) (ts : List Task) (task : Task)
    (hpath : jsTruthyStr args.tasksJsonPath = true)
    (hid : jsNumFalsy (resolveTaskId args) = false)
    (hread : o.readJSON fs.store = some data)
    (hts : data.tasks = some ts)
    (hfind : findTask ts ((resolveTaskId args).getD 0) = some task)
    (hstatus : task.status = "done" ∨ task.status = "completed") :
    expandTaskDirect o args fs =
      (.err "TASK_COMPLETED"
        ("Task " ++ toString ((resolveTaskId args).getD 0) ++ " is already marked as " ++
          task.status ++ " and cannot be expanded"), fs) := by
  unfold expandTaskDirect expandResolved expandMain
  simp [hpath, hid, hread, hts, hfind, hstatus]

/-- Witness for C2: a concrete run on a `done` task returns `TASK_COMPLETED`
and leaves the file system untouched. -/
theorem C2_terminal_status_guard_witness :
    expandTaskDirect (mkTestOracles cTaskDone none) cArgs cFS =
      (.err "TASK_COMPLETED" "Task 3 is already marked as done and cannot be expanded", cFS) :=
  C2_terminal_status_guard (mkTestOracles cTaskDone none) cArgs cFS
    (cDataOf cTaskDone) [cTaskDone] cTaskDone
    (by decide) (by decide) (by decide) (by decide) (by decide) (by decide)

/-- **C3** (No-op idempotence).  Whenever the validated target task already
has at least one subtask and `force` is false, `expandTaskDirect` returns
success with `subtasksAdded = 0`, touches neither the store file nor the
backup file (so the store is byte-for-byte unchanged), and a repeated call on
the resulting state returns the same result. -/
theorem C3_noop_idempotence
    (o : Oracles) (args : ExpandArgs) (fs : FS)
    (data : TasksData) (ts : List Task) (task : Task)
    (hpath : jsTruthyStr args.tasksJsonPath = true)
    (hid : jsNumFalsy (resolveTaskId args) = false)
    (hread : o.readJSON fs.store = some data)
    (hts : data.tasks = some ts)
    (hfind : findTask ts ((resolveTaskId args).getD 0) = some task)
    (hstatus : ¬(task.status = "done" ∨ task.status = "completed"))
    (hsub : hasExistingSubtasksOf task = true)
    (hforce : args.force = false) :
    expandTaskDirect o args fs =
      (.ok { message := "Task " ++ toString ((resolveTaskId args).getD 0) ++
               " already has subtasks. Expansion skipped.",
             task := task,
             newSubtasks := none,
             subtasksAdded := 0,
             totalSubtasks := none,
             hasExistingSubtasks := some true }, fs) ∧
    expandTaskDirect o args ((expandTaskDirect o args fs).2) =
      expandTaskDirect o args fs := by
  have h1 : expandTaskDirect o args fs =
      (.ok { message := "Task " ++ toString ((resolveTaskId args).getD 0) ++
               " already has subtasks. Expansion skipped.",
             task := task,
             newSubtasks := none,
             subtasksAdded := 0,
             totalSubtasks := none,
             hasExistingSubtasks := some true }, fs) := by
    unfold expandTaskDirect expandResolved expandMain
    simp [hpath, hid, hread, hts, hfind, hstatus, hsub, hforce]
  refine ⟨h1, ?_⟩
  rw [h1]
  exact h1

/-- Witness for C3: a concrete run on a task with an existing subtask and
`force = false` is a success with `subtasksAdded = 0` that changes nothing,
and repeating it gives the same result. -/
theorem C3_noop_idempotence_witness :
    expandTaskDirect (mkTestOracles cTaskSub none) cArgs cFS =
      (.ok { message := "Task 3 already has subtasks. Expansion skipped.",
             task := cTaskSub,
             newSubtasks := none,
             subtasksAdded := 0,
             totalSubtasks := none,
             hasExistingSubtasks := some true }, cFS) ∧
    expandTaskDirect (mkTestOracles cTaskSub none) cArgs
        ((expandTaskDirect (mkTestOracles cTaskSub none) cArgs cFS).2) =
      expandTaskDirect (mkTestOracles cTaskSub none) cArgs cFS :=
  C3_noop_idempotence (mkTestOracles cTaskSub none) cArgs cFS
    (cDataOf cTaskSub) [cTaskSub] cTaskSub
    (by decide) (by decide) (by decide) (by decide) (by decide) (by decide)
    (by decide) (by decide)

/-- Helper: once validation passes (path and id present, store readable, task
found, status non-terminal, not the skip case), `expandTaskDirect` performs
the Preparing write (backup, then store := serialization of the cleared
document) and enters the generation phase. -/
theorem expand_reaches_generate
    (o : Oracles) (args : ExpandArgs) (fs : FS)
    (data : TasksData) (ts : List Task) (task : Task)
    (hpath : jsTruthyStr args.tasksJsonPath = true)
    (hid : jsNumFalsy (resolveTaskId args) = false)
    (hread : o.readJSON fs.store = some data)
    (hts : data.tasks = some ts)
    (hfind : findTask ts ((resolveTaskId args).getD 0) = some task)
    (hstatus : ¬(task.status = "done" ∨ task.status = "completed"))
    (hnoskip : (hasExistingSubtasksOf task && !args.force) = false) :
    expandTaskDirect o args fs =
      expandGenerate o ((resolveTaskId args).getD 0) (resolveNumSubtasks args)
        args.research (jsOrStr args.prompt "")
        (prepData data ts ((resolveTaskId args).getD 0) (prepTask task args.force))
        (prepTask task args.force) (clearTask task args.force)
        { store := o.writeJSON
            (prepData data ts ((resolveTaskId args).getD 0) (prepTask task args.force)),
          backup := some fs.store } := by
  unfold expandTaskDirect expandResolved expandMain
  simp [hpath, hid, hread, hts, hfind, hstatus, hnoskip]

/-- Helper: when the AI call throws or the parse returns `null`/empty, the
generation phase fails with `CORE_FUNCTION_ERROR` and leaves the file system
exactly as the Preparing step left it. -/
theorem expandGenerate_failure
    (o : Oracles) (tid : Int) (numSubtasks : Option Int) (useResearch : Bool)
    (ctx : String) (dataPrep : TasksData) (taskPrep originalTask : Task) (fs1 : FS)
    (hfail :
      (∃ m, o.callAIProvider
          (mkFullPrompt (jsOrNum numSubtasks 5) (nextSubtaskIdOf taskPrep) taskPrep ctx)
          useResearch = .error m) ∨
      (∃ text, o.callAIProvider
          (mkFullPrompt (jsOrNum numSubtasks 5) (nextSubtaskIdOf taskPrep) taskPrep ctx)
          useResearch = .ok text ∧
        (o.parseSubtasksFromText text (nextSubtaskIdOf taskPrep) (jsOrNum numSubtasks 5) tid
            = none ∨
         o.parseSubtasksFromText text (nextSubtaskIdOf taskPrep) (jsOrNum numSubtasks 5) tid
            = some []))) :
    codeOf (expandGenerate o tid numSubtasks useResearch ctx
        dataPrep taskPrep originalTask fs1).1 = some "CORE_FUNCTION_ERROR" ∧
    (expandGenerate o tid numSubtasks useResearch ctx
        dataPrep taskPrep originalTask fs1).2 = fs1 := by
  unfold expandGenerate
  rcases hfail with ⟨m, hm⟩ | ⟨text, htext, hp | hp⟩
  · simp [hm, codeOf]
  · simp [htext, hp, codeOf]
  · simp [htext, hp, codeOf]

/-- **C1** (amended).  If the AI call throws or its response fails parsing,
`expandTaskDirect` returns failure with code `CORE_FUNCTION_ERROR` and the
backup file is retained, holding the exact pre-operation store content; the
store file itself, however, holds the serialization of the pre-operation
document with the target task's `subtasks` cleared to the empty list (the
Preparing write), so it coincides with the pre-operation content only when
that serialization does. -/
theorem C1_generation_failure_state
    (o : Oracles) (args : ExpandArgs) (fs : FS)
    (data : TasksData) (ts : List Task) (task : Task)
    (hpath : jsTruthyStr args.tasksJsonPath = true)
    (hid : jsNumFalsy (resolveTaskId args) = false)
    (hread : o.readJSON fs.store = some data)
    (hts : data.tasks = some ts)
    (hfind : findTask ts ((resolveTaskId args).getD 0) = some task)
    (hstatus : ¬(task.status = "done" ∨ task.status = "completed"))
    (hnoskip : (hasExistingSubtasksOf task && !args.force) = false)
    (hfail :
      (∃ m, o.callAIProvider
          (mkFullPrompt (jsOrNum (resolveNumSubtasks args) 5)
            (nextSubtaskIdOf (prepTask task args.force)) (prepTask task args.force)
            (jsOrStr args.prompt ""))
          args.research = .error m) ∨
      (∃ text, o.callAIProvider
          (mkFullPrompt (jsOrNum (resolveNumSubtasks args) 5)
            (nextSubtaskIdOf (prepTask task args.force)) (prepTask task args.force)
            (jsOrStr args.prompt ""))
          args.research = .ok text ∧
        (o.parseSubtasksFromText text (nextSubtaskIdOf (prepTask task args.force))
            (jsOrNum (resolveNumSubtasks args) 5) ((resolveTaskId args).getD 0) = none ∨
         o.parseSubtasksFromText text (nextSubtaskIdOf (prepTask task args.force))
            (jsOrNum (resolveNumSubtasks args) 5) ((resolveTaskId args).getD 0) = some []))) :
    codeOf (expandTaskDirect o args fs).1 = some "CORE_FUNCTION_ERROR" ∧
    (expandTaskDirect o args fs).2 =
      { store := o.writeJSON
          (prepData data ts ((resolveTaskId args).getD 0) (prepTask task args.force)),
        backup := some fs.store } := by
  rw [expand_reaches_generate o args fs data ts task hpath hid hread hts hfind hstatus hnoskip]
  exact expandGenerate_failure o ((resolveTaskId args).getD 0) (resolveNumSubtasks args)
    args.research (jsOrStr args.prompt "")
    (prepData data ts ((resolveTaskId args).getD 0) (prepTask task args.force))
    (prepTask task args.force) (clearTask task args.force) _ hfail

/-- Witness for C1 (amended): a concrete parse failure ends with
`CORE_FUNCTION_ERROR`, the backup holding the pre-operation bytes, and the
store holding the serialized cleared document. -/
theorem C1_generation_failure_state_witness :
    codeOf (expandTaskDirect (mkTestOracles cTaskPend none) cArgs cFS).1 =
      some "CORE_FUNCTION_ERROR" ∧
    (expandTaskDirect (mkTestOracles cTaskPend none) cArgs cFS).2 =
      { store := "prep", backup := some "orig" } :=
  C1_generation_failure_state (mkTestOracles cTaskPend none) cArgs cFS
    (cDataOf cTaskPend) [cTaskPend] cTaskPend
    (by decide) (by decide) (by decide) (by decide) (by decide) (by decide) (by decide)
    (Or.inr ⟨"resp", rfl, Or.inl rfl⟩)

/-- Counterexample to C1 as stated: with `force = true` on a task that has a
subtask, a parse failure leaves the store file holding the cleared-subtasks
serialization `"prep"`, which differs from the pre-operation content
`"orig"` — the store file is *not* unchanged (the result code and the retained
backup do match the claim). -/
theorem C1_counterexample :
    expandTaskDirect (mkTestOracles cTaskSub none) { cArgs with force := true } cFS =
      (.err "CORE_FUNCTION_ERROR" "AI did not return valid subtasks.",
        { store := "prep", backup := some "orig" }) ∧
    ¬ ({ store := "prep", backup := some "orig" } : FS).store = cFS.store := by
  exact ⟨by decide, by decide⟩

/-- Helper: the generation phase only produces well-formed results. -/
theorem expandGenerate_wf (o : Oracles) (tid : Int) (n : Option Int) (r : Bool)
    (ctx : String) (dp : TasksData) (tp ot : Task) (fs1 : FS) :
    ResultWellFormed (expandGenerate o tid n r ctx dp tp ot fs1).1 := by
  unfold expandGenerate
  cases hC : o.callAIProvider (mkFullPrompt (jsOrNum n 5) (nextSubtaskIdOf tp) tp ctx) r with
  | error m => simp [hC, ResultWellFormed, resultCodes]
  | ok text =>
    cases hP : o.parseSubtasksFromText text (nextSubtaskIdOf tp) (jsOrNum n 5) tid with
    | none => simp [hC, hP, ResultWellFormed, resultCodes]
    | some l =>
      cases l with
      | nil => simp [hC, hP, ResultWellFormed, resultCodes]
      | cons a as =>
        cases hF : findTask (dp.tasks.getD []) tid with
        | none => simp [hC, hP, hF, ResultWellFormed, resultCodes]
        | some tf => simp [hC, hP, hF, ResultWellFormed]

/-- Helper: the outer-try body only produces well-formed results. -/
theorem expandMain_wf (o : Oracles) (p : String) (tid : Int) (n : Option Int)
    (r : Bool) (ctx : String) (f : Bool) (fs : FS) :
    ResultWellFormed (expandMain o p tid n r ctx f fs).1 := by
  unfold expandMain
  cases hR : o.readJSON fs.store with
  | none => simp [hR, ResultWellFormed, resultCodes]
  | some data =>
    cases hT : data.tasks with
    | none => simp [hR, hT, ResultWellFormed, resultCodes]
    | some ts =>
      cases hF : findTask ts tid with
      | none => simp [hR, hT, hF, ResultWellFormed, resultCodes]
      | some task =>
        simp only [hR, hT, hF]
        by_cases hS : task.status = "done" ∨ task.status = "completed"
        · simp [hS, ResultWellFormed, resultCodes]
        · rw [if_neg hS]
          by_cases hE : (hasExistingSubtasksOf task && !f) = true
          · simp [hE, ResultWellFormed]
          · simp only [hE, if_false, Bool.false_eq_true]
            exact expandGenerate_wf o tid n r ctx _ _ _ _

/-- **C7** (amended).  Every result of `expandTaskDirect` is well-formed: a
full-expansion success carries all of `message`, `task`, `newSubtasks`,
`subtasksAdded`, `totalSubtasks`; the skip success (existing subtasks, no
force) carries `message`, `task`, `subtasksAdded = 0` and
`hasExistingSubtasks = true` but *no* `newSubtasks`/`totalSubtasks` keys; and
every failure's code is drawn from the fixed code set. -/
theorem C7_result_shape (o : Oracles) (args : ExpandArgs) (fs : FS) :
    ResultWellFormed (expandTaskDirect o args fs).1 := by
  unfold expandTaskDirect expandResolved
  split
  · simp [ResultWellFormed, resultCodes]
  · split
    · simp [ResultWellFormed, resultCodes]
    · exact expandMain_wf o _ _ _ _ _ _ fs

/-- Counterexample to C7 as stated: the skip-success result of a concrete run
is a success whose `data` has neither a `newSubtasks` nor a `totalSubtasks`
field, so not every successful result carries all five fields. -/
theorem C7_counterexample :
    (expandTaskDirect (mkTestOracles cTaskSub none) cArgs cFS).1 =
      .ok { message := "Task 3 already has subtasks. Expansion skipped.",
            task := cTaskSub,
            newSubtasks := none,
            subtasksAdded := 0,
            totalSubtasks := none,
            hasExistingSubtasks := some true } ∧
    ¬ ∀ d, (expandTaskDirect (mkTestOracles cTaskSub none) cArgs cFS).1 = .ok d →
        (d.newSubtasks.isSome ∧ d.totalSubtasks.isSome) := by
  constructor
  · decide
  · intro h
    have := h { message := "Task 3 already has subtasks. Expansion skipped.",
                task := cTaskSub,
                newSubtasks := none,
                subtasksAdded := 0,
                totalSubtasks := none,
                hasExistingSubtasks := some true } (by decide)
    exact absurd this.1 (by decide)

/-- Helper: the generation phase uses its subtask-count argument only through
`numSubtasks || 5`. -/
theorem expandGenerate_count_congr (x y : Option Int) (h : jsOrNum x 5 = jsOrNum y 5)
    (o : Oracles) (tid : Int) (r : Bool) (ctx : String) (dp : TasksData)
    (tp ot : Task) (fs1 : FS) :
    expandGenerate o tid x r ctx dp tp ot fs1 =
      expandGenerate o tid y r ctx dp tp ot fs1 := by
  simp only [expandGenerate, h]

/-- Helper: the outer-try body uses its subtask-count argument only through
`numSubtasks || 5`. -/
theorem expandMain_count_congr (x y : Option Int) (h : jsOrNum x 5 = jsOrNum y 5)
    (o : Oracles) (p : String) (tid : Int) (r : Bool) (ctx : String)
    (f : Bool) (fs : FS) :
    expandMain o p tid x r ctx f fs = expandMain o p tid y r ctx f fs := by
  unfold expandMain
  cases hR : o.readJSON fs.store with
  | none => simp [hR]
  | some data =>
    cases hT : data.tasks with
    | none => simp [hR, hT]
    | some ts =>
      cases hF : findTask ts tid with
      | none => simp [hR, hT, hF]
      | some task =>
        simp only [hR, hT, hF]
        by_cases hS : task.status = "done" ∨ task.status = "completed"
        · simp [hS]
        · rw [if_neg hS, if_neg hS]
          by_cases hE : (hasExistingSubtasksOf task && !f) = true
          · simp [hE]
          · simp only [hE, if_false, Bool.false_eq_true]
            exact expandGenerate_count_congr x y h o tid r ctx _ _ _ _

/-- Helper: `expandTaskDirect` unfolded to the guard phase over the processed
arguments. -/
theorem expandTaskDirect_def (o : Oracles) (a : ExpandArgs) (fs : FS) :
    expandTaskDirect o a fs =
      expandResolved o a.tasksJsonPath (resolveTaskId a) (resolveNumSubtasks a)
        a.research a.prompt a.force fs := rfl

/-- Helper: the guard phase uses its subtask-count argument only through
`numSubtasks || 5`. -/
theorem expandResolved_count_congr (x y : Option Int) (h : jsOrNum x 5 = jsOrNum y 5)
    (o : Oracles) (tasksPath : Option String) (taskId : Option Int) (r : Bool)
    (prompt : Option String) (f : Bool) (fs : FS) :
    expandResolved o tasksPath taskId x r prompt f fs =
      expandResolved o tasksPath taskId y r prompt f fs := by
  unfold expandResolved
  split
  · rfl
  · split
    · rfl
    · exact expandMain_count_congr x y h o _ _ _ _ _ fs

/-- Helper: the generation phase never fails with `INPUT_VALIDATION_ERROR`. -/
theorem expandGenerate_no_input_validation (o : Oracles) (tid : Int)
    (n : Option Int) (r : Bool) (ctx : String) (dp : TasksData) (tp ot : Task)
    (fs1 : FS) (m : String) :
    (expandGenerate o tid n r ctx dp tp ot fs1).1 ≠
      ExpandOutcome.err "INPUT_VALIDATION_ERROR" m := by
  unfold expandGenerate
  cases hC : o.callAIProvider (mkFullPrompt (jsOrNum n 5) (nextSubtaskIdOf tp) tp ctx) r with
  | error em => simp [hC]
  | ok text =>
    cases hP : o.parseSubtasksFromText text (nextSubtaskIdOf tp) (jsOrNum n 5) tid with
    | none => simp [hC, hP]
    | some l =>
      cases l with
      | nil => simp [hC, hP]
      | cons a as =>
        cases hF : findTask (dp.tasks.getD []) tid with
        | none => simp [hC, hP, hF]
        | some tf => simp [hC, hP, hF]

/-- Helper: the outer-try body never fails with `INPUT_VALIDATION_ERROR`. -/
theorem expandMain_no_input_validation (o : Oracles) (p : String) (tid : Int)
    (n : Option Int) (r : Bool) (ctx : String) (f : Bool) (fs : FS) (m : String) :
    (expandMain o p tid n r ctx f fs).1 ≠
      ExpandOutcome.err "INPUT_VALIDATION_ERROR" m := by
  unfold expandMain
  cases hR : o.readJSON fs.store with
  | none => simp [hR]
  | some data =>
    cases hT : data.tasks with
    | none => simp [hR, hT]
    | some ts =>
      cases hF : findTask ts tid with
      | none => simp [hR, hT, hF]
      | some task =>
        simp only [hR, hT, hF]
        by_cases hS : task.status = "done" ∨ task.status = "completed"
        · simp [hS]
        · rw [if_neg hS]
          by_cases hE : (hasExistingSubtasksOf task && !f) = true
          · simp [hE]
          · simp only [hE, if_false, Bool.false_eq_true]
            exact expandGenerate_no_input_validation o tid n r ctx _ _ _ _ m

/-- Helper: a result with code `INPUT_VALIDATION_ERROR` can only come from the
task-id guard. -/
theorem expand_input_validation_implies (o : Oracles) (a : ExpandArgs) (fs : FS)
    (m : String)
    (hm : (expandTaskDirect o a fs).1 = ExpandOutcome.err "INPUT_VALIDATION_ERROR" m) :
    jsNumFalsy (resolveTaskId a) = true := by
  by_cases h2 : jsNumFalsy (resolveTaskId a) = true
  · exact h2
  · exfalso
    unfold expandTaskDirect expandResolved at hm
    by_cases h1 : jsTruthyStr a.tasksJsonPath = true
    · rw [if_neg (show ¬¬jsTruthyStr a.tasksJsonPath = true by simp [h1]), if_neg h2] at hm
      exact expandMain_no_input_validation o _ _ _ _ _ _ fs m hm
    · rw [if_pos (show ¬jsTruthyStr a.tasksJsonPath = true by simp [h1])] at hm
      simp at hm

/-- **C10**.  A `num` argument that parses to `NaN` or to `0` is not
rejected: the run is identical to a run with no `num` argument at all (which
uses the default count of 5 in the prompt), and any `INPUT_VALIDATION_ERROR`
failure can only stem from the task id, never from `num`. -/
theorem C10_invalid_num_uses_default
    (o : Oracles) (args : ExpandArgs) (fs : FS) (s : String)
    (hs : parseIntJS s = none ∨ parseIntJS s = some 0) :
    expandTaskDirect o { args with num := some s } fs =
      expandTaskDirect o { args with num := none } fs ∧
    (∀ m, (expandTaskDirect o { args with num := some s } fs).1 =
        ExpandOutcome.err "INPUT_VALIDATION_ERROR" m →
      jsNumFalsy (resolveTaskId args) = true) := by
  have e1 : resolveNumSubtasks { args with num := some s } =
      (if jsTruthyStr (some s) then parseIntJS s else none : Option Int) := rfl
  have e2 : resolveNumSubtasks { args with num := none } = (none : Option Int) := rfl
  have hc : jsOrNum (resolveNumSubtasks { args with num := some s }) 5 =
      jsOrNum (resolveNumSubtasks { args with num := none }) 5 := by
    rw [e1, e2]
    by_cases hse : s = ""
    · simp [jsTruthyStr, hse]
    · rcases hs with h | h <;> simp [jsTruthyStr, hse, h, jsOrNum]
  constructor
  · rw [expandTaskDirect_def, expandTaskDirect_def]
    exact expandResolved_count_congr _ _ hc o _ _ _ _ _ fs
  · intro m hm
    exact expand_input_validation_implies o { args with num := some s } fs m hm

/-- Witness for C10: with `num = "abc"` the concrete run equals the
no-`num` run and the id guard is not triggered. -/
theorem C10_invalid_num_uses_default_witness :
    expandTaskDirect (mkTestOracles cTaskPend none) { cArgs with num := some "abc" } cFS =
      expandTaskDirect (mkTestOracles cTaskPend none) { cArgs with num := none } cFS ∧
    (∀ m, (expandTaskDirect (mkTestOracles cTaskPend none)
        { cArgs with num := some "abc" } cFS).1 =
        ExpandOutcome.err "INPUT_VALIDATION_ERROR" m →
      jsNumFalsy (resolveTaskId cArgs) = true) :=
  C10_invalid_num_uses_default (mkTestOracles cTaskPend none) cArgs cFS "abc"
    (Or.inl (by decide))

/-! ## Resolver claims -/

/-- The `type` tag of a resolution result, `none` on failure. -/
def typeOfResolution : Except String ModelInfo → Option String
  | .ok m => some m.type
  | .error _ => none

/-- An environment with no variable set at all. -/
def envEmpty : Env :=
  { AI_PROVIDER := none, ANTHROPIC_API_KEY := none, GOOGLE_API_KEY := none,
    PERPLEXITY_API_KEY := none, MODEL := none, GEMINI_MODEL := none,
    PERPLEXITY_MODEL := none, openaiImportOk := true }

/-- Environment: primary family Google, no Google key, an Anthropic key. -/
def envGoogleNoKey : Env :=
  { envEmpty with AI_PROVIDER := some "GOOGLE", ANTHROPIC_API_KEY := some "ak" }

/-- Environment: only a Perplexity key. -/
def envPerplexityOnly : Env :=
  { envEmpty with PERPLEXITY_API_KEY := some "pk" }

/-- Environment: Perplexity key present but the `openai` import fails; an
Anthropic key is present. -/
def envPerplexityBroken : Env :=
  { envEmpty with
    PERPLEXITY_API_KEY := some "pk"
    ANTHROPIC_API_KEY := some "ak"
    openaiImportOk := false }

/-- **C4** (amended).  With research requested, no Perplexity credentials, and
the primary family's own credentials present, resolution succeeds with the
primary-family conversational profile (Google when `AI_PROVIDER` selects
Google, Claude otherwise). -/
theorem C4_research_falls_back_to_primary (e : Env) (ov : Bool)
    (hp : truthyOpt e.PERPLEXITY_API_KEY = none)
    (hcred : (if primaryProviderOf e = "GOOGLE" then truthyOpt e.GOOGLE_API_KEY
      else truthyOpt e.ANTHROPIC_API_KEY).isSome = true) :
    typeOfResolution (getBestAvailableAIModel e true ov) =
      some (if primaryProviderOf e = "GOOGLE" then "google" else "claude") := by
  by_cases hg : primaryProviderOf e = "GOOGLE"
  · rw [if_pos hg] at hcred
    obtain ⟨k, hk⟩ := Option.isSome_iff_exists.mp hcred
    simp [getBestAvailableAIModel, getGoogleClientForMCP, typeOfResolution, hp, hg, hk]
  · rw [if_neg hg] at hcred
    obtain ⟨k, hk⟩ := Option.isSome_iff_exists.mp hcred
    simp [getBestAvailableAIModel, getAnthropicClientForMCP, typeOfResolution, hp, hg, hk]

/-- Witness for C4 (amended): with only an Anthropic key configured and
research requested, the resolver binds the Claude profile. -/
theorem C4_research_falls_back_to_primary_witness :
    typeOfResolution (getBestAvailableAIModel
      { envEmpty with ANTHROPIC_API_KEY := some "ak" } true false) = some "claude" :=
  C4_research_falls_back_to_primary { envEmpty with ANTHROPIC_API_KEY := some "ak" } false
    (by decide) (by decide)

/-- Counterexample to C4 as stated: with research requested and no Perplexity
credentials, but the primary family's credentials also missing, resolution
*fails* rather than returning the primary profile. -/
theorem C4_counterexample :
    getBestAvailableAIModel envEmpty true false =
      .error "No AI models available for research" := rfl

/-- **C5** (amended).  A failure to construct the Perplexity client on the
research path falls through to the rest of the policy (the run is identical
to a non-research run), but when research is requested and no research
credentials are configured, a failure binding the primary-family provider
aborts resolution immediately — the other family is never attempted. -/
theorem C5_fallback_continuation (e : Env) (ov : Bool) :
    (∀ k, truthyOpt e.PERPLEXITY_API_KEY = some k → e.openaiImportOk = false →
      getBestAvailableAIModel e true ov = getBestAvailableAIModel e false ov) ∧
    (truthyOpt e.PERPLEXITY_API_KEY = none →
      (if primaryProviderOf e = "GOOGLE" then truthyOpt e.GOOGLE_API_KEY
        else truthyOpt e.ANTHROPIC_API_KEY) = none →
      getBestAvailableAIModel e true ov = .error "No AI models available for research") := by
  constructor
  · intro k hk him
    simp [getBestAvailableAIModel, getPerplexityClientForMCP, hk, him]
  · intro hp hcred
    by_cases hg : primaryProviderOf e = "GOOGLE"
    · rw [if_pos hg] at hcred
      simp [getBestAvailableAIModel, getGoogleClientForMCP, hp, hg, hcred]
    · rw [if_neg hg] at hcred
      simp [getBestAvailableAIModel, getAnthropicClientForMCP, hp, hg, hcred]

/-- Witness for C5 (amended): a concrete broken-Perplexity run equals the
non-research run, and a concrete no-credentials research run aborts. -/
theorem C5_fallback_continuation_witness :
    getBestAvailableAIModel envPerplexityBroken true false =
      getBestAvailableAIModel envPerplexityBroken false false ∧
    getBestAvailableAIModel envEmpty true false =
      .error "No AI models available for research" :=
  ⟨(C5_fallback_continuation envPerplexityBroken false).1 "pk" (by decide) (by decide),
   (C5_fallback_continuation envEmpty false).2 (by decide) (by decide)⟩

/-- Counterexample to C5 as stated: with `AI_PROVIDER=GOOGLE`, no Google key
but an Anthropic key, a research request fails with "No AI models available
for research" even though the very same environment binds the Anthropic
provider when the research branch is not taken — the failed step aborted
resolution without attempting the remaining tiers. -/
theorem C5_counterexample :
    getBestAvailableAIModel envGoogleNoKey true false =
      .error "No AI models available for research" ∧
    getBestAvailableAIModel envGoogleNoKey false false =
      .ok { type := "claude", client := .anthropic "ak",
            modelName := some "claude-3-7-sonnet-2025-02-19" } :=
  ⟨rfl, rfl⟩

/-- **C6**.  With the primary family Anthropic and Claude overloaded (and no
research request), resolution attempts, in order: Google if its key is
configured, then Perplexity if its key is configured (and the client can be
built), then the overloaded Claude itself; the first success is bound and
resolution fails only when all three fail. -/
theorem C6_overload_order (e : Env) (hprim : primaryProviderOf e = "ANTHROPIC") :
    getBestAvailableAIModel e false true =
      (match truthyOpt e.GOOGLE_API_KEY with
      | some k =>
        .ok { type := "google", client := .google k, modelName := some (geminiModelName e) }
      | none =>
        match truthyOpt e.PERPLEXITY_API_KEY, e.openaiImportOk with
        | some k, true =>
          .ok { type := "perplexity", client := .perplexity k,
                modelName := some ((truthyOpt e.PERPLEXITY_MODEL).getD "sonar-pro") }
        | _, _ =>
          match truthyOpt e.ANTHROPIC_API_KEY with
          | some k =>
            .ok { type := "claude", client := .anthropic k,
                  modelName := some (claudeModelName e "claude-3-7-sonnet-2025-02-19") }
          | none => .error "No AI models available, Claude overloaded and fallbacks failed.") := by
  cases hg : truthyOpt e.GOOGLE_API_KEY with
  | some k =>
    simp [getBestAvailableAIModel, resolveOverloaded, getGoogleClientForMCP, hprim, hg]
  | none =>
    cases hpk : truthyOpt e.PERPLEXITY_API_KEY with
    | none =>
      cases ha : truthyOpt e.ANTHROPIC_API_KEY with
      | some k =>
        simp [getBestAvailableAIModel, resolveOverloaded, getGoogleClientForMCP,
          getPerplexityClientForMCP, getAnthropicClientForMCP, hprim, hg, hpk, ha]
      | none =>
        simp [getBestAvailableAIModel, resolveOverloaded, getGoogleClientForMCP,
          getPerplexityClientForMCP, getAnthropicClientForMCP, hprim, hg, hpk, ha]
    | some k =>
      cases him : e.openaiImportOk with
      | true =>
        simp [getBestAvailableAIModel, resolveOverloaded, getGoogleClientForMCP,
          getPerplexityClientForMCP, hprim, hg, hpk, him]
      | false =>
        cases ha : truthyOpt e.ANTHROPIC_API_KEY with
        | some k2 =>
          simp [getBestAvailableAIModel, resolveOverloaded, getGoogleClientForMCP,
            getPerplexityClientForMCP, getAnthropicClientForMCP, hprim, hg, hpk, him, ha]
        | none =>
          simp [getBestAvailableAIModel, resolveOverloaded, getGoogleClientForMCP,
            getPerplexityClientForMCP, getAnthropicClientForMCP, hprim, hg, hpk, him, ha]

/-- Witness for C6: with only a Google key configured and Claude overloaded,
the resolver binds Google first. -/
theorem C6_overload_order_witness :
    getBestAvailableAIModel { envEmpty with GOOGLE_API_KEY := some "gk" } false true =
      .ok { type := "google", client := .google "gk",
            modelName := some "gemini-2.5-pro-latest" } := by
  rw [C6_overload_order { envEmpty with GOOGLE_API_KEY := some "gk" } (by decide)]
  rfl

/-- Helper: every successful binding out of the Claude-overloaded fallback
block carries a model name. -/
theorem resolveOverloaded_modelName (e : Env) (m : ModelInfo)
    (h : resolveOverloaded e = .ok m) : m.modelName.isSome = true := by
  unfold resolveOverloaded getGoogleClientForMCP getPerplexityClientForMCP
    getAnthropicClientForMCP at h
  by_cases hX : primaryProviderOf e = "GOOGLE" <;>
  cases hg : truthyOpt e.GOOGLE_API_KEY <;>
  cases hpk : truthyOpt e.PERPLEXITY_API_KEY <;>
  cases him : e.openaiImportOk <;>
  cases ha : truthyOpt e.ANTHROPIC_API_KEY <;>
    simp [hX, hg, hpk, him, ha] at h <;> subst h <;> rfl

/-- Helper: every successful binding out of the default block carries a model
name. -/
theorem resolveDefault_modelName (e : Env) (m : ModelInfo)
    (h : resolveDefault e = .ok m) : m.modelName.isSome = true := by
  unfold resolveDefault getGoogleClientForMCP getAnthropicClientForMCP at h
  by_cases hX : primaryProviderOf e = "GOOGLE" <;>
  by_cases hA : primaryProviderOf e = "ANTHROPIC" <;>
  cases hg : truthyOpt e.GOOGLE_API_KEY <;>
  cases ha : truthyOpt e.ANTHROPIC_API_KEY <;>
    simp [hX, hA, hg, ha] at h <;> subst h <;> rfl

/-- **C9** (amended).  Every successful resolution carries a type tag and a
client; every path except the research-path Perplexity binding also carries a
model name — a handle without a model name can only be the research-path
Perplexity one. -/
theorem C9_model_name_paths (e : Env) (r ov : Bool) (m : ModelInfo)
    (hok : getBestAvailableAIModel e r ov = .ok m) (hnone : m.modelName = none) :
    m.type = "perplexity" ∧ r = true := by
  unfold getBestAvailableAIModel at hok
  cases r with
  | false =>
    exfalso
    simp only [Bool.false_and, Bool.false_eq_true, if_false, reduceIte] at hok
    cases ov with
    | true =>
      simp only [if_true, reduceIte] at hok
      have h2 := resolveOverloaded_modelName e m hok
      rw [hnone] at h2
      simp at h2
    | false =>
      simp only [if_false, Bool.false_eq_true, reduceIte] at hok
      have h2 := resolveDefault_modelName e m hok
      rw [hnone] at h2
      simp at h2
  | true =>
    cases hpk : truthyOpt e.PERPLEXITY_API_KEY with
    | none =>
      exfalso
      by_cases hX : primaryProviderOf e = "GOOGLE" <;>
      cases hg : truthyOpt e.GOOGLE_API_KEY <;>
      cases ha : truthyOpt e.ANTHROPIC_API_KEY <;>
        simp [getGoogleClientForMCP, getAnthropicClientForMCP,
          hpk, hX, hg, ha] at hok <;>
        subst hok <;> simp at hnone
    | some k =>
      cases him : e.openaiImportOk with
      | true =>
        simp [getPerplexityClientForMCP, hpk, him] at hok
        subst hok
        exact ⟨rfl, rfl⟩
      | false =>
        simp [getPerplexityClientForMCP, hpk, him] at hok
        cases ov with
        | true =>
          simp only [if_true, reduceIte] at hok
          have h2 := resolveOverloaded_modelName e m hok
          rw [hnone] at h2
          simp at h2
        | false =>
          simp only [if_false, Bool.false_eq_true, reduceIte] at hok
          have h2 := resolveDefault_modelName e m hok
          rw [hnone] at h2
          simp at h2

/-- Witness for C9 (amended): applying the theorem to the concrete
research-path Perplexity run. -/
theorem C9_model_name_paths_witness :
    ({ type := "perplexity", client := .perplexity "pk", modelName := none } : ModelInfo).type =
      "perplexity" ∧ true = true :=
  C9_model_name_paths envPerplexityOnly true false
    { type := "perplexity", client := .perplexity "pk", modelName := none } rfl rfl

/-- Counterexample to C9 as stated: the research-path Perplexity resolution
returns a handle with *no* model name. -/
theorem C9_counterexample :
    getBestAvailableAIModel envPerplexityOnly true false =
      .ok { type := "perplexity", client := .perplexity "pk", modelName := none } ∧
    ({ type := "perplexity", client := .perplexity "pk", modelName := none } : ModelInfo).modelName
      = none :=
  ⟨rfl, rfl⟩

/-! ## Prompt claims -/

/-- Substring containment survives appending on the right. -/
theorem containsSubstr_append_right (s u pat : String) (h : ContainsSubstr s pat) :
    ContainsSubstr (s ++ u) pat := by
  obtain ⟨a, b, hab⟩ := h
  exact ⟨a, b ++ u, by rw [hab]; simp [String.append_assoc]⟩

/-- The system prompt demands exactly `subtaskCount` subtasks. -/
theorem sysPrompt_contains_return (c nid : Int) :
    ContainsSubstr (mkSystemPrompt c nid)
      ("Return exactly " ++ toString c ++ " subtasks") :=
  ⟨sysA ++ toString c ++ sysB ++ "use numerical IDs starting from " ++ toString nid ++ sysC,
   sysD ++ "\"id\": " ++ toString nid ++ sysE0 ++ "\"title\"" ++ sysE1 ++ "\"description\"" ++
     sysE2 ++ "\"dependencies\"" ++ sysE3 ++ "\"details\"" ++ sysE4,
   by simp [mkSystemPrompt, String.append_assoc]⟩

/-- The system prompt demands ids starting from `nextSubtaskId`. -/
theorem sysPrompt_contains_start (c nid : Int) :
    ContainsSubstr (mkSystemPrompt c nid)
      ("use numerical IDs starting from " ++ toString nid) :=
  ⟨sysA ++ toString c ++ sysB,
   sysC ++ "Return exactly " ++ toString c ++ " subtasks" ++ sysD ++ "\"id\": " ++
     toString nid ++ sysE0 ++ "\"title\"" ++ sysE1 ++ "\"description\"" ++ sysE2 ++
     "\"dependencies\"" ++ sysE3 ++ "\"details\"" ++ sysE4,
   by simp [mkSystemPrompt, String.append_assoc]⟩

/-- The system prompt's JSON example gives the first subtask the id
`nextSubtaskId`. -/
theorem sysPrompt_contains_id (c nid : Int) :
    ContainsSubstr (mkSystemPrompt c nid) ("\"id\": " ++ toString nid) :=
  ⟨sysA ++ toString c ++ sysB ++ "use numerical IDs starting from " ++ toString nid ++ sysC ++
     "Return exactly " ++ toString c ++ " subtasks" ++ sysD,
   sysE0 ++ "\"title\"" ++ sysE1 ++ "\"description\"" ++ sysE2 ++ "\"dependencies\"" ++
     sysE3 ++ "\"details\"" ++ sysE4,
   by simp [mkSystemPrompt, String.append_assoc]⟩

/-- The system prompt's JSON example carries the `title` field key. -/
theorem sysPrompt_contains_title (c nid : Int) :
    ContainsSubstr (mkSystemPrompt c nid) "\"title\"" :=
  ⟨sysA ++ toString c ++ sysB ++ "use numerical IDs starting from " ++ toString nid ++ sysC ++
     "Return exactly " ++ toString c ++ " subtasks" ++ sysD ++ "\"id\": " ++ toString nid ++ sysE0,
   sysE1 ++ "\"description\"" ++ sysE2 ++ "\"dependencies\"" ++ sysE3 ++ "\"details\"" ++ sysE4,
   by simp [mkSystemPrompt, String.append_assoc]⟩

/-- The system prompt's JSON example carries the `description` field key. -/
theorem sysPrompt_contains_description (c nid : Int) :
    ContainsSubstr (mkSystemPrompt c nid) "\"description\"" :=
  ⟨sysA ++ toString c ++ sysB ++ "use numerical IDs starting from " ++ toString nid ++ sysC ++
     "Return exactly " ++ toString c ++ " subtasks" ++ sysD ++ "\"id\": " ++ toString nid ++
     sysE0 ++ "\"title\"" ++ sysE1,
   sysE2 ++ "\"dependencies\"" ++ sysE3 ++ "\"details\"" ++ sysE4,
   by simp [mkSystemPrompt, String.append_assoc]⟩

/-- The system prompt's JSON example carries the `dependencies` field key. -/
theorem sysPrompt_contains_dependencies (c nid : Int) :
    ContainsSubstr (mkSystemPrompt c nid) "\"dependencies\"" :=
  ⟨sysA ++ toString c ++ sysB ++ "use numerical IDs starting from " ++ toString nid ++ sysC ++
     "Return exactly " ++ toString c ++ " subtasks" ++ sysD ++ "\"id\": " ++ toString nid ++
     sysE0 ++ "\"title\"" ++ sysE1 ++ "\"description\"" ++ sysE2,
   sysE3 ++ "\"details\"" ++ sysE4,
   by simp [mkSystemPrompt, String.append_assoc]⟩

/-- The system prompt's JSON example carries the `details` field key. -/
theorem sysPrompt_contains_details (c nid : Int) :
    ContainsSubstr (mkSystemPrompt c nid) "\"details\"" :=
  ⟨sysA ++ toString c ++ sysB ++ "use numerical IDs starting from " ++ toString nid ++ sysC ++
     "Return exactly " ++ toString c ++ " subtasks" ++ sysD ++ "\"id\": " ++ toString nid ++
     sysE0 ++ "\"title\"" ++ sysE1 ++ "\"description\"" ++ sysE2 ++ "\"dependencies\"" ++ sysE3,
   sysE4,
   by simp [mkSystemPrompt, String.append_assoc]⟩

/-- Substring facts about the system prompt lift to the full prompt. -/
theorem fullPrompt_contains (c nid : Int) (t : Task) (ctx pat : String)
    (h : ContainsSubstr (mkSystemPrompt c nid) pat) :
    ContainsSubstr (mkFullPrompt c nid t ctx) pat := by
  unfold mkFullPrompt
  exact containsSubstr_append_right _ _ _ (containsSubstr_append_right _ _ _ h)

/-- **C8**.  With `c` the subtask count the expansion uses (`num || 5`, so 5
when the caller supplies none) and `nid` the next subtask id
(`(task.subtasks?.length || 0) + 1`), the prompt sent to the provider asks
for exactly `c` subtasks, ids starting from `nid`, fields
`id`/`title`/`description`/`dependencies`/`details`, and is a deterministic
function of the task's fields, the count, and the extra context. -/
theorem C8_prompt_contract (t : Task) (numArg : Option Int) (ctx : String) :
    jsOrNum (none : Option Int) 5 = 5 ∧
    nextSubtaskIdOf t = ((t.subtasks.getD []).length : Int) + 1 ∧
    ContainsSubstr (mkFullPrompt (jsOrNum numArg 5) (nextSubtaskIdOf t) t ctx)
      ("Return exactly " ++ toString (jsOrNum numArg 5) ++ " subtasks") ∧
    ContainsSubstr (mkFullPrompt (jsOrNum numArg 5) (nextSubtaskIdOf t) t ctx)
      ("use numerical IDs starting from " ++ toString (nextSubtaskIdOf t)) ∧
    ContainsSubstr (mkFullPrompt (jsOrNum numArg 5) (nextSubtaskIdOf t) t ctx)
      ("\"id\": " ++ toString (nextSubtaskIdOf t)) ∧
    ContainsSubstr (mkFullPrompt (jsOrNum numArg 5) (nextSubtaskIdOf t) t ctx) "\"title\"" ∧
    ContainsSubstr (mkFullPrompt (jsOrNum numArg 5) (nextSubtaskIdOf t) t ctx) "\"description\"" ∧
    ContainsSubstr (mkFullPrompt (jsOrNum numArg 5) (nextSubtaskIdOf t) t ctx) "\"dependencies\"" ∧
    ContainsSubstr (mkFullPrompt (jsOrNum numArg 5) (nextSubtaskIdOf t) t ctx) "\"details\"" ∧
    (∀ t₂ : Task, t₂.id = t.id → t₂.title = t.title → t₂.description = t.description →
      t₂.details = t.details →
      mkFullPrompt (jsOrNum numArg 5) (nextSubtaskIdOf t) t₂ ctx =
        mkFullPrompt (jsOrNum numArg 5) (nextSubtaskIdOf t) t ctx) := by
  refine ⟨rfl, rfl, ?_, ?_, ?_, ?_, ?_, ?_, ?_, ?_⟩
  · exact fullPrompt_contains _ _ t ctx _ (sysPrompt_contains_return _ _)
  · exact fullPrompt_contains _ _ t ctx _ (sysPrompt_contains_start _ _)
  · exact fullPrompt_contains _ _ t ctx _ (sysPrompt_contains_id _ _)
  · exact fullPrompt_contains _ _ t ctx _ (sysPrompt_contains_title _ _)
  · exact fullPrompt_contains _ _ t ctx _ (sysPrompt_contains_description _ _)
  · exact fullPrompt_contains _ _ t ctx _ (sysPrompt_contains_dependencies _ _)
  · exact fullPrompt_contains _ _ t ctx _ (sysPrompt_contains_details _ _)
  · intro t₂ h1 h2 h3 h4
    simp [mkFullPrompt, mkUserPrompt, h1, h2, h3, h4]

/-- Witness for C8: the concrete default-count prompt for the sample task
demands exactly 5 subtasks. -/
theorem C8_prompt_contract_witness :
    ContainsSubstr (mkFullPrompt (jsOrNum (none : Option Int) 5)
        (nextSubtaskIdOf cTaskPend) cTaskPend "")
      ("Return exactly " ++ toString (jsOrNum (none : Option Int) 5) ++ " subtasks") :=
  (C8_prompt_contract cTaskPend none "").2.2.1

end TaskMaster
